import Mathlib

/-!
Shallow embedding of the `native` package of the native-ingester repository
(`src/native/native_writer.go`) together with the `publicationEvent` accessors
of the `queue` package (whose implementation is not under `src/`; only its
tests are, so those accessors are modelled from the spec).

Go values of type `map[string]interface\x7b\x7d` decoded from JSON are modelled by
association lists of `Jval` with unique keys; Go map assignment is `mapSet`.
Machine integers (HTTP status codes) are modelled as `Int`.  The HTTP client
is modelled as a function field `httpDo` on the writer; an execution of
`WriteToCollection` is recorded as a `WriteExec` carrying the returned error
(`none` = Go `nil`), the request handed to the client (if any) and the final
state of the response body resource (if a response was received).
-/

namespace Native

/-- Characters written via their code so that no brace appears inside a literal. -/
def lbraceChar : Char := Char.ofNat 123

def rbraceChar : Char := Char.ofNat 125

def squote : String := String.singleton (Char.ofNat 39)

def lbraceStr : String := String.singleton lbraceChar

def rbraceStr : String := String.singleton rbraceChar

/-- Go `error` values: `errors.New` / `fmt.Errorf` produce a value exposing a message. -/
structure GoError where
  msg : String
deriving DecidableEq, Repr

/-- Dynamic JSON values, the model of Go `interface\x7b\x7d` as produced by
`encoding/json.Unmarshal`.  Numbers keep their source lexeme (their numeric
value plays no role in this development). -/
inductive Jval where
  | str (s : String)
  | num (lexeme : String)
  | boolean (b : Bool)
  | null
  | arr (elems : List Jval)
  | obj (fields : List (String × Jval))
deriving Repr

/-- A decoded JSON object: the model of Go `map[string]interface\x7b\x7d`. -/
abbrev Jobj := List (String × Jval)

/-- Go map assignment `m[k] = v` on the association-list model: replaces the
binding of `k` when present, otherwise appends it.  Lists built from `[]` by
`mapSet` have unique keys, matching Go map semantics. -/
def mapSet {α : Type} : List (String × α) → String → α → List (String × α)
  | [], k, v => [(k, v)]
  | (k₀, v₀) :: rest, k, v =>
      if k₀ = k then (k, v) :: rest else (k₀, v₀) :: mapSet rest k v

/-- Go comma-ok map lookup `v, ok := m[k]` on the association-list model. -/
def mapGet {α : Type} : List (String × α) → String → Option α
  | [], _ => none
  | (k₀, v₀) :: rest, k => if k₀ = k then some v₀ else mapGet rest k

/-- JSON whitespace as accepted by `encoding/json`: space, tab, newline, carriage return. -/
def isJsonWS (c : Char) : Bool :=
  c = ' ' || c = '\t' || c = '\n' || c = '\r'

def skipWS : List Char → List Char
  | [] => []
  | c :: cs => if isJsonWS c then skipWS cs else c :: cs

/-- Body of a JSON string literal, after the opening quote: returns the decoded
characters and the remaining input, `none` on a malformed literal.  The model
supports the simple escapes; `\u` escapes are outside the model. -/
def parseStringChars : List Char → Option (List Char × List Char)
  | [] => none
  | c :: cs =>
    if c = '"' then some ([], cs)
    else if c = '\\' then
      match cs with
      | [] => none
      | e :: cs₂ =>
        let dec : Option Char :=
          if e = '"' then some '"'
          else if e = '\\' then some '\\'
          else if e = '/' then some '/'
          else if e = 'n' then some '\n'
          else if e = 't' then some '\t'
          else if e = 'r' then some '\r'
          else none
        match dec with
        | none => none
        | some d =>
          match parseStringChars cs₂ with
          | none => none
          | some (out, rest) => some (d :: out, rest)
    else
      match parseStringChars cs with
      | none => none
      | some (out, rest) => some (c :: out, rest)

/-- Characters that may continue a JSON number lexeme. -/
def isNumChar (c : Char) : Bool :=
  c.isDigit || c = '-' || c = '+' || c = '.' || c = 'e' || c = 'E'

/-- Diagnostic of `encoding/json` for an unexpected character where a value must start. -/
def invalidCharValueMsg (c : Char) : String :=
  "invalid character " ++ squote ++ String.singleton c ++ squote ++
    " looking for beginning of value"

/-- Diagnostic of `encoding/json` for data following the first decoded value. -/
def invalidCharAfterTopMsg (c : Char) : String :=
  "invalid character " ++ squote ++ String.singleton c ++ squote ++
    " after top-level value"

def unexpectedEndMsg : String := "unexpected end of JSON input"

mutual

/-- One JSON value, fuel-indexed (model of the recursive-descent decoding done
by `encoding/json`).  On success returns the value and the unconsumed input. -/
def parseJValue : Nat → List Char → Except GoError (Jval × List Char)
  | 0, _ => .error ⟨unexpectedEndMsg⟩
  | Nat.succ fuel, cs =>
    match skipWS cs with
    | [] => .error ⟨unexpectedEndMsg⟩
    | c :: rest =>
      if c = '"' then
        match parseStringChars rest with
        | none => .error ⟨unexpectedEndMsg⟩
        | some (out, rest₂) => .ok (.str (String.mk out), rest₂)
      else if c = lbraceChar then parseJMembersFirst fuel rest
      else if c = '[' then parseJElemsFirst fuel rest
      else if c = 't' then
        match rest with
        | 'r' :: 'u' :: 'e' :: rest₂ => .ok (.boolean true, rest₂)
        | _ => .error ⟨unexpectedEndMsg⟩
      else if c = 'f' then
        match rest with
        | 'a' :: 'l' :: 's' :: 'e' :: rest₂ => .ok (.boolean false, rest₂)
        | _ => .error ⟨unexpectedEndMsg⟩
      else if c = 'n' then
        match rest with
        | 'u' :: 'l' :: 'l' :: rest₂ => .ok (.null, rest₂)
        | _ => .error ⟨unexpectedEndMsg⟩
      else if c = '-' || c.isDigit then
        .ok (.num (String.mk (c :: rest.takeWhile isNumChar)),
             rest.dropWhile isNumChar)
      else .error ⟨invalidCharValueMsg c⟩

/-- Object members directly after the opening brace: either a closing brace or
a first member followed by `parseJMembersRest`. -/
def parseJMembersFirst : Nat → List Char → Except GoError (Jval × List Char)
  | 0, _ => .error ⟨unexpectedEndMsg⟩
  | Nat.succ fuel, cs =>
    match skipWS cs with
    | [] => .error ⟨unexpectedEndMsg⟩
    | c :: rest =>
      if c = rbraceChar then .ok (.obj [], rest)
      else parseJMember fuel (c :: rest) []

/-- One `"key": value` member, accumulating into the object (Go map semantics:
a duplicate key overwrites). -/
def parseJMember : Nat → List Char → Jobj → Except GoError (Jval × List Char)
  | 0, _, _ => .error ⟨unexpectedEndMsg⟩
  | Nat.succ fuel, cs, acc =>
    match cs with
    | '"' :: rest =>
      match parseStringChars rest with
      | none => .error ⟨unexpectedEndMsg⟩
      | some (key, rest₂) =>
        match skipWS rest₂ with
        | ':' :: rest₃ =>
          match parseJValue fuel rest₃ with
          | .error e => .error e
          | .ok (v, rest₄) =>
            parseJMembersRest fuel rest₄ (mapSet acc (String.mk key) v)
        | _ => .error ⟨unexpectedEndMsg⟩
    | _ => .error ⟨unexpectedEndMsg⟩

/-- After a member: a comma and a further member, or the closing brace. -/
def parseJMembersRest : Nat → List Char → Jobj → Except GoError (Jval × List Char)
  | 0, _, _ => .error ⟨unexpectedEndMsg⟩
  | Nat.succ fuel, cs, acc =>
    match skipWS cs with
    | [] => .error ⟨unexpectedEndMsg⟩
    | c :: rest =>
      if c = rbraceChar then .ok (.obj acc, rest)
      else if c = ',' then parseJMember fuel (skipWS rest) acc
      else .error ⟨unexpectedEndMsg⟩

/-- Array elements directly after the opening bracket. -/
def parseJElemsFirst : Nat → List Char → Except GoError (Jval × List Char)
  | 0, _ => .error ⟨unexpectedEndMsg⟩
  | Nat.succ fuel, cs =>
    match skipWS cs with
    | [] => .error ⟨unexpectedEndMsg⟩
    | c :: rest =>
      if c = ']' then .ok (.arr [], rest)
      else
        match parseJValue fuel (c :: rest) with
        | .error e => .error e
        | .ok (v, rest₂) => parseJElemsRest fuel rest₂ [v]

/-- After an array element: a comma and a further element, or the closing bracket. -/
def parseJElemsRest : Nat → List Char → List Jval → Except GoError (Jval × List Char)
  | 0, _, _ => .error ⟨unexpectedEndMsg⟩
  | Nat.succ fuel, cs, acc =>
    match skipWS cs with
    | [] => .error ⟨unexpectedEndMsg⟩
    | c :: rest =>
      if c = ']' then .ok (.arr acc, rest)
      else if c = ',' then
        match parseJValue fuel rest with
        | .error e => .error e
        | .ok (v, rest₂) => parseJElemsRest fuel rest₂ (acc ++ [v])
      else .error ⟨unexpectedEndMsg⟩

end

/-- Name used by the diagnostics of `encoding/json` for the dynamic type of a value. -/
def jKindName : Jval → String
  | .str _ => "string"
  | .num _ => "number"
  | .boolean _ => "bool"
  | .null => "null"
  | .arr _ => "array"
  | .obj _ => "object"

/-- Model of `json.Unmarshal([]byte(s), &body)` for `body : map[string]interface\x7b\x7d`:
decode one value, reject trailing data, and require an object (`null` leaves
the freshly made empty map untouched, as in Go). -/
def jsonUnmarshalMap (s : String) : Except GoError Jobj :=
  match parseJValue (s.length + 1) s.data with
  | .error e => .error e
  | .ok (v, rest) =>
    match skipWS rest with
    | c :: _ => .error ⟨invalidCharAfterTopMsg c⟩
    | [] =>
      match v with
      | .obj fields => .ok fields
      | .null => .ok []
      | other =>
        .error ⟨"json: cannot unmarshal " ++ jKindName other ++
          " into Go value of type map[string]interface \x7b\x7d"⟩

end Native

namespace Native

/-- Render a JSON string literal (model of the encoder of `encoding/json`). -/
def renderJString (s : String) : String :=
  "\"" ++ String.join (s.data.map (fun c =>
    if c = '"' then "\\\""
    else if c = '\\' then "\\\\"
    else if c = '\n' then "\\n"
    else if c = '\t' then "\\t"
    else if c = '\r' then "\\r"
    else String.singleton c)) ++ "\""

mutual

/-- Serialize a dynamic JSON value (model of `json.Marshal`; Go additionally
sorts map keys, an ordering detail that no property here depends on). -/
def renderJval : Jval → String
  | .str s => renderJString s
  | .num lexeme => lexeme
  | .boolean b => if b then "true" else "false"
  | .null => "null"
  | .arr elems => "[" ++ renderJList elems ++ "]"
  | .obj fields => lbraceStr ++ renderJMembers fields ++ rbraceStr

def renderJList : List Jval → String
  | [] => ""
  | [v] => renderJval v
  | v :: rest => renderJval v ++ "," ++ renderJList rest

def renderJMembers : List (String × Jval) → String
  | [] => ""
  | [(k, v)] => renderJString k ++ ":" ++ renderJval v
  | (k, v) :: rest => renderJString k ++ ":" ++ renderJval v ++ "," ++ renderJMembers rest

end

/-- Model of `json.Marshal(msg.body)`.  On values decoded from JSON the Go
marshaller cannot fail, so this always returns `.ok`; the error branch of the
caller is kept as in the source. -/
def jsonMarshal (body : Jobj) : Except GoError String :=
  .ok (renderJval (.obj body))

def nativeHashHeader : String := "X-Native-Hash"

def transactionIDHeader : String := "X-Request-Id"

/-- NativeMessage is the message accepted by the native writer. -/
structure NativeMessage where
  body : Jobj
  headers : List (String × String)
deriving Repr

/-- NewNativeMessage returns a new instance of a NativeMessage. -/
def NewNativeMessage (contentBody timestamp transactionID : String) :
    Except GoError NativeMessage :=
  match jsonUnmarshalMap contentBody with
  | .error e => .error e
  | .ok body₀ =>
    let body₁ := mapSet body₀ "lastModified" (.str timestamp)
    let body₂ := mapSet body₁ "publishReference" (.str transactionID)
    .ok { body := body₂, headers := mapSet [] transactionIDHeader transactionID }

/-- AddHashHeader adds the hash of the native content as a header. -/
def NativeMessage.AddHashHeader (msg : NativeMessage) (hash : String) : NativeMessage :=
  { msg with headers := mapSet msg.headers nativeHashHeader hash }

def NativeMessage.transactionID (msg : NativeMessage) : String :=
  (mapGet msg.headers transactionIDHeader).getD ""

/-- Go `unicode.IsSpace` restricted to the characters it covers in Latin-1:
space, tab, newline, vertical tab, form feed, carriage return, NEL, NBSP. -/
def isGoSpace (c : Char) : Bool :=
  c = ' ' || c = '\t' || c = '\n' || c = Char.ofNat 11 || c = Char.ofNat 12 ||
  c = '\r' || c = Char.ofNat 0x85 || c = Char.ofNat 0xA0

/-- Model of Go `strings.TrimSpace`: strips leading and trailing white space. -/
def trimSpace (s : String) : String :=
  String.mk (((s.data.dropWhile isGoSpace).reverse.dropWhile isGoSpace).reverse)

/-- An outbound HTTP request.  `host` is Go `http.Request.Host`: when empty the
client falls back to the host of the URL, so `""` means "no override". -/
structure Request where
  method : String
  url : String
  body : String
  headers : List (String × String)
  host : String
deriving Repr

/-- The Host header that the Go client effectively sends in place of the URL
host: `http.Request.Host` overrides only when non-empty. -/
def hostOverride (r : Request) : Option String :=
  if r.host = "" then none else some r.host

structure Response where
  statusCode : Int
deriving Repr

/-- Model of `http.NewRequest`: fails (as `url.Parse` does) when the URL holds
an ASCII control character, otherwise yields a request with empty headers. -/
def urlHasCtl (u : String) : Bool :=
  u.data.any (fun c => c.toNat < 32 || c.toNat = 127)

def httpNewRequest (method urlStr bodyStr : String) : Except GoError Request :=
  if urlHasCtl urlStr then
    .error ⟨"parse " ++ renderJString urlStr ++ ": net/url: invalid control character in URL"⟩
  else
    .ok { method := method, url := urlStr, body := bodyStr, headers := [], host := "" }

/-- State of a response body resource, tracked for the drain-and-close duty. -/
structure BodyState where
  drained : Bool
  closed : Bool
deriving DecidableEq, Repr

/-- `properClose` drains (`io.Copy(ioutil.Discard, resp.Body)`) and closes the
response body; read/close failures are only logged. -/
def properClose (_b : BodyState) : BodyState :=
  { drained := true, closed := true }

def isNot2XXStatusCode (statusCode : Int) : Bool :=
  decide (statusCode < 200) || decide (statusCode ≥ 300)

/-- The collection configuration of the writer, `nativeCollections`. -/
structure nativeCollections where
  collectionsOriginIdsMap : List (String × String)

def newNativeCollections (collectionsOriginIdsMap : List (String × String)) :
    nativeCollections :=
  ⟨collectionsOriginIdsMap⟩

/-- Go `c.collectionsOriginIdsMap[originID]`: indexing a map yields the zero
value `""` for an absent key. -/
def mapIndex (m : List (String × String)) (k : String) : String :=
  (mapGet m k).getD ""

def nativeCollections.getCollectionByOriginID (c : nativeCollections)
    (originID : String) : Except GoError String :=
  let collection := mapIndex c.collectionsOriginIdsMap originID
  if collection = "" then .error ⟨"Collection not found"⟩ else .ok collection

/-- The native writer.  `httpClient.Do` is modelled by the function field
`httpDo`; the `ContentBodyParser` interface by the function field `bodyParser`
(`getUUID`), whose implementation lives outside this package. -/
structure nativeWriter where
  address : String
  collections : nativeCollections
  hostHeader : String
  httpDo : Request → Except GoError Response
  bodyParser : Jobj → Except GoError String

/-- NewWriter returns a new instance of a native writer. -/
def NewWriter (address : String) (collectionsOriginIdsMap : List (String × String))
    (hostHeader : String) (httpDo : Request → Except GoError Response)
    (parser : Jobj → Except GoError String) : nativeWriter :=
  ⟨address, newNativeCollections collectionsOriginIdsMap, hostHeader, httpDo, parser⟩

def nativeWriter.GetCollectionByOriginID (nw : nativeWriter) (originID : String) :
    Except GoError String :=
  nw.collections.getCollectionByOriginID originID

/-- Record of one execution of `WriteToCollection`: the returned error (`none`
is Go `nil`), the request handed to `httpClient.Do` (if reached), and the final
state of the response body (when a response was received). -/
structure WriteExec where
  result : Option GoError
  issued : Option Request
  finalBody : Option BodyState
deriving Repr

/-- Set all headers of the message on the request headers, in the order of the
list (Go ranges over the map in unspecified order; `Header.Set` per distinct
key makes the outcome order-independent). -/
def hdrFold (init : List (String × String)) (l : List (String × String)) :
    List (String × String) :=
  l.foldl (fun hs p => mapSet hs p.1 p.2) init

def nativeWriter.WriteToCollection (nw : nativeWriter) (msg : NativeMessage)
    (collection : String) : WriteExec :=
  match nw.bodyParser msg.body with
  | .error err => { result := some err, issued := none, finalBody := none }
  | .ok contentUUID =>
    match jsonMarshal msg.body with
    | .error err => { result := some err, issued := none, finalBody := none }
    | .ok cBodyAsJSON =>
      let requestURL := nw.address ++ "/" ++ collection ++ "/" ++ contentUUID
      match httpNewRequest "PUT" requestURL cBodyAsJSON with
      | .error err => { result := some err, issued := none, finalBody := none }
      | .ok request₀ =>
        let request₁ :=
          { request₀ with headers := mapSet request₀.headers "Content-Type" "application/json" }
        let request₂ := { request₁ with headers := hdrFold request₁.headers msg.headers }
        let request₃ :=
          if (trimSpace nw.hostHeader).length > 0 then { request₂ with host := nw.hostHeader }
          else request₂
        match nw.httpDo request₃ with
        | .error err => { result := some err, issued := some request₃, finalBody := none }
        | .ok response =>
          let finalBody := properClose { drained := false, closed := false }
          if isNot2XXStatusCode response.statusCode then
            { result := some ⟨"Native writer returned non-200 code"⟩,
              issued := some request₃, finalBody := some finalBody }
          else
            { result := none, issued := some request₃, finalBody := some finalBody }

/-- The well-known liveness path, `httphandlers.GTGPath` of service-status-go. -/
def GTGPath : String := "/__gtg"

/-- Record of one execution of `ConnectivityCheck`: returned message and error,
and the request handed to the client (if built). -/
structure ConnExec where
  message : String
  err : Option GoError
  issued : Option Request
deriving Repr

def nativeWriter.ConnectivityCheck (nw : nativeWriter) : ConnExec :=
  match httpNewRequest "GET" (nw.address ++ GTGPath) "" with
  | .error err =>
    { message := "Error in building request to check if the native writer is good to go",
      err := some err, issued := none }
  | .ok req₀ =>
    let req := { req₀ with host := nw.hostHeader }
    match nw.httpDo req with
    | .error err =>
      { message := "Native writer is not good to go.", err := some err, issued := some req }
    | .ok resp =>
      if resp.statusCode ≠ 200 then
        { message := "Native writer is not good to go.",
          err := some ⟨"GTG HTTP status code is " ++ toString resp.statusCode⟩,
          issued := some req }
      else
        { message := "Native writer is good to go.", err := none, issued := some req }

/-- A raw queue message (`consumer.Message` of message-queue-gonsumer). -/
structure Message where
  Headers : List (String × String)
  Body : String
deriving Repr

/-- Modelled from the spec: the `publicationEvent` wrapper of the `queue`
package is not under `src/` (only its tests are); it wraps one raw queue
message. -/
structure publicationEvent where
  message : Message
deriving Repr

/-- Modelled from the spec: `transactionID()` returns the `X-Request-Id` header
value or the empty string; never fails. -/
def publicationEvent.transactionID (pe : publicationEvent) : String :=
  (mapGet pe.message.Headers "X-Request-Id").getD ""

/-- Modelled from the spec: `originSystemID()` returns the `Origin-System-Id`
header value or the empty string; never fails. -/
def publicationEvent.originSystemID (pe : publicationEvent) : String :=
  (mapGet pe.message.Headers "Origin-System-Id").getD ""

/-- Modelled from the spec: `contentBody()` fails when the `Message-Timestamp`
header is absent (its test expects the error "Publish event does not contain
timestamp"), and otherwise builds the enriched native message via
`NewNativeMessage` from the raw body, the timestamp and the transaction id. -/
def publicationEvent.contentBody (pe : publicationEvent) :
    Except GoError NativeMessage :=
  match mapGet pe.message.Headers "Message-Timestamp" with
  | none => .error ⟨"Publish event does not contain timestamp"⟩
  | some timestamp => NewNativeMessage pe.message.Body timestamp pe.transactionID

end Native

namespace Native

/-! Concrete fixtures, mirroring those of the tests of the repository. -/

def someMsgHeaders : List (String × String) :=
  [("X-Request-Id", "tid_test"),
   ("Origin-System-Id", "http://cmdb.ft.com/systems/methode-web-pub"),
   ("Message-Timestamp", "2017-02-16T12:56:16Z")]

def fooBarBody : String := "\x7b\"foo\":\"bar\"\x7d"

def notJsonBody : String := "I" ++ squote ++ "m not JSON"

def aMsg : Message := ⟨someMsgHeaders, fooBarBody⟩

def aMsgWithBadBody : Message := ⟨someMsgHeaders, notJsonBody⟩

def aMsgWithoutTimestamp : Message := ⟨[], fooBarBody⟩

def sampleNativeMsg : NativeMessage :=
  ⟨[("foo", .str "bar")], [("X-Request-Id", "tid_test")]⟩

/-- A `ContentBodyParser` stub whose `getUUID` always succeeds. -/
def stubParserOk (uuid : String) : Jobj → Except GoError String := fun _ => .ok uuid

/-- An HTTP client stub answering every request with the given status. -/
def stubDoOk (st : Int) : Request → Except GoError Response := fun _ => .ok ⟨st⟩

/-- An HTTP client stub failing every request with the given transport error. -/
def stubDoErr (e : GoError) : Request → Except GoError Response := fun _ => .error e

def writerWithStatus (st : Int) : nativeWriter :=
  NewWriter "http://base" [("o", "content")] "host" (stubDoOk st) (stubParserOk "abc-123")

def failingParserWriter : nativeWriter :=
  NewWriter "http://base" [] "" (stubDoOk 200) (fun _ => .error ⟨"no uuid found"⟩)

def whitespaceHostWriter : nativeWriter :=
  NewWriter "http://base" [] " " (stubDoOk 200) (stubParserOk "abc-123")

/-- The request that `WriteToCollection` hands to the HTTP client once the
uuid is extracted and the URL parses: a `PUT` on
`\x7bbaseAddress\x7d/\x7bcollection\x7d/\x7bcontentID\x7d` with `Content-Type: application/json`
followed by all message headers, and the host override when the configured
host header has non-whitespace content (derived accessor for the proofs). -/
def writeRequest (nw : nativeWriter) (msg : NativeMessage) (collection uuid : String) :
    Request :=
  let request₂ : Request :=
    { method := "PUT", url := nw.address ++ "/" ++ collection ++ "/" ++ uuid,
      body := renderJval (.obj msg.body),
      headers := hdrFold (mapSet [] "Content-Type" "application/json") msg.headers,
      host := "" }
  if (trimSpace nw.hostHeader).length > 0 then { request₂ with host := nw.hostHeader }
  else request₂

/-- The request that `ConnectivityCheck` hands to the HTTP client: a `GET` on
the liveness path with the configured host header set unconditionally (derived
accessor for the proofs). -/
def gtgRequest (nw : nativeWriter) : Request :=
  { method := "GET", url := nw.address ++ GTGPath, body := "", headers := [],
    host := nw.hostHeader }

/-! Lemmas about the association-list model of Go maps. -/

theorem mapGet_mapSet_self {α : Type} (m : List (String × α)) (k : String) (v : α) :
    mapGet (mapSet m k v) k = some v := by
  induction m with
  | nil => simp [mapSet, mapGet]
  | cons p rest ih =>
    obtain ⟨k₀, v₀⟩ := p
    by_cases h : k₀ = k
    · simp [mapSet, h, mapGet]
    · simp [mapSet, h, mapGet, ih]

theorem mapGet_mapSet_ne {α : Type} (m : List (String × α)) (k k' : String) (v : α)
    (h : k' ≠ k) : mapGet (mapSet m k v) k' = mapGet m k' := by
  have hkk : ¬(k = k') := fun h' => h h'.symm
  induction m with
  | nil => simp [mapSet, mapGet, hkk]
  | cons p rest ih =>
    obtain ⟨k₀, v₀⟩ := p
    by_cases h₀ : k₀ = k
    · have hk₀ : ¬(k₀ = k') := fun h' => hkk (h₀.symm.trans h')
      simp [mapSet, h₀, mapGet, hkk, hk₀]
    · by_cases h₁ : k₀ = k'
      · simp [mapSet, h₀, mapGet, h₁, h]
      · simp [mapSet, h₀, mapGet, h₁, ih]

theorem mapGet_eq_none_iff {α : Type} (m : List (String × α)) (k : String) :
    mapGet m k = none ↔ ∀ p ∈ m, p.1 ≠ k := by
  induction m with
  | nil => simp [mapGet]
  | cons p rest ih =>
    obtain ⟨k₀, v₀⟩ := p
    by_cases h : k₀ = k
    · simp [mapGet, h]
    · simp [mapGet, h, ih]

theorem hdrFold_mapGet_of_forall_ne (l init : List (String × String)) (k : String)
    (h : ∀ p ∈ l, p.1 ≠ k) : mapGet (hdrFold init l) k = mapGet init k := by
  induction l generalizing init with
  | nil => simp [hdrFold]
  | cons p rest ih =>
    obtain ⟨k₀, v₀⟩ := p
    have hk₀ : k₀ ≠ k := h (k₀, v₀) (by simp)
    have hrest : ∀ p ∈ rest, p.1 ≠ k := fun p hp => h p (by simp [hp])
    calc mapGet (hdrFold init ((k₀, v₀) :: rest)) k
        = mapGet (hdrFold (mapSet init k₀ v₀) rest) k := by simp [hdrFold]
      _ = mapGet (mapSet init k₀ v₀) k := ih (mapSet init k₀ v₀) hrest
      _ = mapGet init k := mapGet_mapSet_ne init k₀ k v₀ (fun h' => hk₀ h'.symm)

theorem hdrFold_mapGet_of_mapGet (l : List (String × String)) (k v : String) :
    ∀ init, (l.map Prod.fst).Nodup → mapGet l k = some v →
      mapGet (hdrFold init l) k = some v := by
  induction l with
  | nil => intro init _ h; simp [mapGet] at h
  | cons p rest ih =>
    intro init hnd h
    obtain ⟨k₀, v₀⟩ := p
    simp only [List.map_cons, List.nodup_cons] at hnd
    by_cases hk : k₀ = k
    · subst hk
      simp only [mapGet, if_pos rfl] at h
      injection h with hv
      subst hv
      have hrest : ∀ p ∈ rest, p.1 ≠ k₀ := by
        intro p hp hcontra
        exact hnd.1 (hcontra ▸ List.mem_map_of_mem Prod.fst hp)
      calc mapGet (hdrFold init ((k₀, v₀) :: rest)) k₀
          = mapGet (hdrFold (mapSet init k₀ v₀) rest) k₀ := by simp [hdrFold]
        _ = mapGet (mapSet init k₀ v₀) k₀ :=
            hdrFold_mapGet_of_forall_ne rest (mapSet init k₀ v₀) k₀ hrest
        _ = some v₀ := mapGet_mapSet_self init k₀ v₀
    · simp only [mapGet, if_neg hk] at h
      calc mapGet (hdrFold init ((k₀, v₀) :: rest)) k
          = mapGet (hdrFold (mapSet init k₀ v₀) rest) k := by simp [hdrFold]
        _ = some v := ih (mapSet init k₀ v₀) hnd.2 h

end Native

namespace Native

/-- Claim C2 (confirmed): for every message whose body is a valid JSON object
and whose `Message-Timestamp` header is non-empty, the enriched content body
holds exactly the fields of the original body plus `lastModified` set to the
timestamp header value and `publishReference` set to the transaction id. -/
theorem C2_contentBody_enrichment (pe : publicationEvent) (ts : String) (obj : Jobj)
    (hts : mapGet pe.message.Headers "Message-Timestamp" = some ts)
    (_hne : ts ≠ "")
    (hobj : jsonUnmarshalMap pe.message.Body = .ok obj) :
    ∃ nm : NativeMessage,
      pe.contentBody = .ok nm
      ∧ mapGet nm.body "lastModified" = some (.str ts)
      ∧ mapGet nm.body "publishReference" = some (.str pe.transactionID)
      ∧ (∀ k, k ≠ "lastModified" → k ≠ "publishReference" →
            mapGet nm.body k = mapGet obj k)
      ∧ (∀ k, (mapGet nm.body k).isSome ↔
            ((mapGet obj k).isSome ∨ k = "lastModified" ∨ k = "publishReference")) := by
  refine ⟨⟨mapSet (mapSet obj "lastModified" (.str ts)) "publishReference"
             (.str pe.transactionID),
           mapSet [] transactionIDHeader pe.transactionID⟩, ?_, ?_, ?_, ?_, ?_⟩
  · unfold publicationEvent.contentBody NewNativeMessage
    rw [hts, hobj]
  · rw [mapGet_mapSet_ne _ _ _ _ (by decide)]
    exact mapGet_mapSet_self _ _ _
  · exact mapGet_mapSet_self _ _ _
  · intro k hk₁ hk₂
    rw [mapGet_mapSet_ne _ _ _ _ hk₂, mapGet_mapSet_ne _ _ _ _ hk₁]
  · intro k
    by_cases hk₂ : k = "publishReference"
    · subst hk₂
      simp [mapGet_mapSet_self]
    · rw [mapGet_mapSet_ne _ _ _ _ hk₂]
      by_cases hk₁ : k = "lastModified"
      · subst hk₁
        simp [mapGet_mapSet_self]
      · rw [mapGet_mapSet_ne _ _ _ _ hk₁]
        simp [hk₁, hk₂]

/-- Witness for C2 at the fixture of the spec: headers of `aMsg` and body
`fooBarBody` produce exactly the enriched body of the spec's example. -/
theorem C2_witness :
    (∃ nm : NativeMessage,
      publicationEvent.contentBody ⟨aMsg⟩ = .ok nm
      ∧ mapGet nm.body "lastModified" = some (.str "2017-02-16T12:56:16Z")
      ∧ mapGet nm.body "publishReference" =
          some (.str (publicationEvent.transactionID ⟨aMsg⟩))
      ∧ (∀ k, k ≠ "lastModified" → k ≠ "publishReference" →
            mapGet nm.body k = mapGet [("foo", Jval.str "bar")] k)
      ∧ (∀ k, (mapGet nm.body k).isSome ↔
            ((mapGet [("foo", Jval.str "bar")] k).isSome
              ∨ k = "lastModified" ∨ k = "publishReference")))
    ∧ publicationEvent.contentBody ⟨aMsg⟩ =
        .ok ⟨[("foo", .str "bar"), ("lastModified", .str "2017-02-16T12:56:16Z"),
              ("publishReference", .str "tid_test")],
             [("X-Request-Id", "tid_test")]⟩ :=
  ⟨C2_contentBody_enrichment ⟨aMsg⟩ "2017-02-16T12:56:16Z" [("foo", Jval.str "bar")]
     rfl (by decide) rfl, rfl⟩

/-- Claim C3 (confirmed): for every message whose timestamp header is absent,
computing the enriched content body fails with the validation error of the
missing timestamp, regardless of the body content. -/
theorem C3_contentBody_missing_timestamp (pe : publicationEvent)
    (h : mapGet pe.message.Headers "Message-Timestamp" = none) :
    pe.contentBody = .error ⟨"Publish event does not contain timestamp"⟩ := by
  unfold publicationEvent.contentBody
  rw [h]

/-- Witness for C3: the fixture without the timestamp header fails, and so does
a header-less message whose body is not even JSON. -/
theorem C3_witness :
    publicationEvent.contentBody ⟨aMsgWithoutTimestamp⟩ =
      .error ⟨"Publish event does not contain timestamp"⟩
    ∧ publicationEvent.contentBody ⟨⟨[], notJsonBody⟩⟩ =
        .error ⟨"Publish event does not contain timestamp"⟩ :=
  ⟨C3_contentBody_missing_timestamp ⟨aMsgWithoutTimestamp⟩ rfl,
   C3_contentBody_missing_timestamp ⟨⟨[], notJsonBody⟩⟩ rfl⟩

/-- Claim C7 (confirmed): for every message carrying a timestamp header whose
body is not valid JSON, the enriched content body fails and the failure is the
JSON decoder's own error value, its diagnostic surfaced unchanged. -/
theorem C7_contentBody_bad_json (pe : publicationEvent) (ts : String) (e : GoError)
    (hts : mapGet pe.message.Headers "Message-Timestamp" = some ts)
    (hbad : jsonUnmarshalMap pe.message.Body = .error e) :
    pe.contentBody = .error e := by
  unfold publicationEvent.contentBody NewNativeMessage
  rw [hts, hbad]

/-- Witness for C7: the fixture body with an invalid leading character fails
with the decoder's diagnostic naming that character. -/
theorem C7_witness :
    publicationEvent.contentBody ⟨aMsgWithBadBody⟩ =
      .error ⟨invalidCharValueMsg 'I'⟩ :=
  C7_contentBody_bad_json ⟨aMsgWithBadBody⟩ "2017-02-16T12:56:16Z"
    ⟨invalidCharValueMsg 'I'⟩ rfl rfl

/-- Claim C8 (confirmed): when `getUUID` fails, `WriteToCollection` returns
that failure unchanged and hands no request to the HTTP client. -/
theorem C8_getUUID_failure_propagated (nw : nativeWriter) (msg : NativeMessage)
    (collection : String) (e : GoError)
    (h : nw.bodyParser msg.body = .error e) :
    nw.WriteToCollection msg collection =
      { result := some e, issued := none, finalBody := none } := by
  unfold nativeWriter.WriteToCollection
  rw [h]

/-- Witness for C8: a writer whose parser rejects every body returns the
parser's error and issues nothing. -/
theorem C8_witness :
    failingParserWriter.WriteToCollection sampleNativeMsg "content" =
      { result := some ⟨"no uuid found"⟩, issued := none, finalBody := none } :=
  C8_getUUID_failure_propagated failingParserWriter sampleNativeMsg "content"
    ⟨"no uuid found"⟩ rfl

/-- Claim C10 (confirmed): `GetCollectionByOriginID` returns the not-found
error exactly when the collection mapping yields the empty string for the id;
an id mapped to the empty string is reported not found just like an unmapped
one. -/
theorem C10_notFound_iff_empty_mapping :
    (∀ (nw : nativeWriter) (originID : String),
        nw.GetCollectionByOriginID originID = .error ⟨"Collection not found"⟩
          ↔ mapIndex nw.collections.collectionsOriginIdsMap originID = "")
    ∧ (newNativeCollections [("origin-a", "")]).getCollectionByOriginID "origin-a" =
        .error ⟨"Collection not found"⟩
    ∧ (newNativeCollections [("origin-a", "")]).getCollectionByOriginID "origin-b" =
        .error ⟨"Collection not found"⟩ := by
  refine ⟨fun nw originID => ?_, rfl, rfl⟩
  unfold nativeWriter.GetCollectionByOriginID nativeCollections.getCollectionByOriginID
  by_cases h : mapIndex nw.collections.collectionsOriginIdsMap originID = ""
  · simp [h]
  · simp [h]

/-- Counterexample to C5 as stated: an empty origin id mapped to a non-empty
collection name succeeds, so the lookup does not fail on every empty id. -/
theorem C5_counterexample :
    (newNativeCollections [("", "content")]).getCollectionByOriginID "" =
      .ok "content" := rfl

/-- Claim C5 (amended): `GetCollectionByOriginID` is the pure pass-through to
the collection lookup; an unmapped id always yields the not-found error and
never a collection name; an empty id fails exactly when the mapping yields the
empty string for it (in particular whenever it is unmapped). -/
theorem C5_amended_pure_lookup :
    (∀ (nw : nativeWriter) (originID : String),
        nw.GetCollectionByOriginID originID =
          nw.collections.getCollectionByOriginID originID)
    ∧ (∀ (m : List (String × String)) (originID : String),
        mapGet m originID = none →
        (newNativeCollections m).getCollectionByOriginID originID =
          .error ⟨"Collection not found"⟩)
    ∧ (∀ (m : List (String × String)) (originID c : String),
        (newNativeCollections m).getCollectionByOriginID originID = .ok c →
        mapGet m originID = some c ∧ c ≠ "") := by
  refine ⟨fun nw originID => rfl, fun m originID h => ?_, fun m originID c h => ?_⟩
  · simp [nativeCollections.getCollectionByOriginID, newNativeCollections, mapIndex, h]
  · unfold nativeCollections.getCollectionByOriginID newNativeCollections at h
    by_cases hmi : mapIndex m originID = ""
    · rw [if_pos hmi] at h
      exact absurd h (by simp)
    · rw [if_neg hmi] at h
      injection h with hc
      have hc' : mapIndex m originID = c := hc
      have hcne : c ≠ "" := fun hce => hmi (hc'.trans hce)
      cases hm : mapGet m originID with
      | none =>
        exact absurd (show mapIndex m originID = "" by simp [mapIndex, hm]) hmi
      | some v =>
        have hv : mapIndex m originID = v := by simp [mapIndex, hm]
        exact ⟨congrArg some (hv.symm.trans hc'), hcne⟩

/-- Witness for the amended C5: an unmapped id fails, and a successful lookup
returns exactly the mapped, non-empty collection name. -/
theorem C5_witness :
    ((newNativeCollections [("o", "content")]).getCollectionByOriginID "unmapped" =
        .error ⟨"Collection not found"⟩)
    ∧ (mapGet [("o", "content")] "o" = some "content" ∧ "content" ≠ "") :=
  ⟨C5_amended_pure_lookup.2.1 [("o", "content")] "unmapped" rfl,
   C5_amended_pure_lookup.2.2 [("o", "content")] "o" "content" rfl⟩

end Native

namespace Native

/-! Execution-shape lemmas for `WriteToCollection` and `ConnectivityCheck`. -/

theorem write_parserFailure (nw : nativeWriter) (msg : NativeMessage)
    (collection : String) (e : GoError) (hp : nw.bodyParser msg.body = .error e) :
    nw.WriteToCollection msg collection =
      { result := some e, issued := none, finalBody := none } := by
  unfold nativeWriter.WriteToCollection
  rw [hp]

theorem write_ctl_url (nw : nativeWriter) (msg : NativeMessage)
    (collection uuid : String) (hp : nw.bodyParser msg.body = .ok uuid)
    (hurl : urlHasCtl (nw.address ++ "/" ++ collection ++ "/" ++ uuid) = true) :
    nw.WriteToCollection msg collection =
      { result := some ⟨"parse " ++
          renderJString (nw.address ++ "/" ++ collection ++ "/" ++ uuid) ++
          ": net/url: invalid control character in URL"⟩,
        issued := none, finalBody := none } := by
  unfold nativeWriter.WriteToCollection
  rw [hp]
  simp only [jsonMarshal, httpNewRequest, hurl, if_true]

theorem write_parserSuccess (nw : nativeWriter) (msg : NativeMessage)
    (collection uuid : String) (hp : nw.bodyParser msg.body = .ok uuid)
    (hurl : urlHasCtl (nw.address ++ "/" ++ collection ++ "/" ++ uuid) = false) :
    nw.WriteToCollection msg collection =
      match nw.httpDo (writeRequest nw msg collection uuid) with
      | .error err =>
        { result := some err, issued := some (writeRequest nw msg collection uuid),
          finalBody := none }
      | .ok response =>
        if isNot2XXStatusCode response.statusCode then
          { result := some ⟨"Native writer returned non-200 code"⟩,
            issued := some (writeRequest nw msg collection uuid),
            finalBody := some ⟨true, true⟩ }
        else
          { result := none, issued := some (writeRequest nw msg collection uuid),
            finalBody := some ⟨true, true⟩ } := by
  unfold nativeWriter.WriteToCollection
  rw [hp]
  simp only [jsonMarshal, httpNewRequest, hurl, Bool.false_eq_true, if_false]
  rfl

theorem connectivityCheck_shape (nw : nativeWriter)
    (hurl : urlHasCtl (nw.address ++ GTGPath) = false) :
    nw.ConnectivityCheck =
      match nw.httpDo (gtgRequest nw) with
      | .error err =>
        { message := "Native writer is not good to go.", err := some err,
          issued := some (gtgRequest nw) }
      | .ok resp =>
        if resp.statusCode ≠ 200 then
          { message := "Native writer is not good to go.",
            err := some ⟨"GTG HTTP status code is " ++ toString resp.statusCode⟩,
            issued := some (gtgRequest nw) }
        else
          { message := "Native writer is good to go.", err := none,
            issued := some (gtgRequest nw) } := by
  unfold nativeWriter.ConnectivityCheck
  simp only [httpNewRequest, hurl, Bool.false_eq_true, if_false]
  rfl

theorem writeRequest_method (nw : nativeWriter) (msg : NativeMessage)
    (collection uuid : String) : (writeRequest nw msg collection uuid).method = "PUT" := by
  unfold writeRequest
  split <;> rfl

theorem writeRequest_url (nw : nativeWriter) (msg : NativeMessage)
    (collection uuid : String) :
    (writeRequest nw msg collection uuid).url =
      nw.address ++ "/" ++ collection ++ "/" ++ uuid := by
  unfold writeRequest
  split <;> rfl

theorem writeRequest_headers (nw : nativeWriter) (msg : NativeMessage)
    (collection uuid : String) :
    (writeRequest nw msg collection uuid).headers =
      hdrFold (mapSet [] "Content-Type" "application/json") msg.headers := by
  unfold writeRequest
  split <;> rfl

theorem writeRequest_host (nw : nativeWriter) (msg : NativeMessage)
    (collection uuid : String) :
    (writeRequest nw msg collection uuid).host =
      (if (trimSpace nw.hostHeader).length > 0 then nw.hostHeader else "") := by
  unfold writeRequest
  split <;> simp_all

/-- Claim C4 (confirmed): on every execution of `WriteToCollection` in which an
HTTP response is received, the response body is drained and closed before the
function returns — on the success path and on the non-2xx classification path
alike; and whenever the transport yields a response, a drained-and-closed body
state is indeed recorded. -/
theorem C4_response_body_drained_closed :
    (∀ (nw : nativeWriter) (msg : NativeMessage) (collection : String) (b : BodyState),
        (nw.WriteToCollection msg collection).finalBody = some b →
        b.drained = true ∧ b.closed = true)
    ∧ (∀ (nw : nativeWriter) (msg : NativeMessage) (collection uuid : String)
        (resp : Response),
        nw.bodyParser msg.body = .ok uuid →
        urlHasCtl (nw.address ++ "/" ++ collection ++ "/" ++ uuid) = false →
        nw.httpDo = (fun _ => .ok resp) →
        (nw.WriteToCollection msg collection).finalBody = some ⟨true, true⟩) := by
  constructor
  · intro nw msg collection b h
    cases hp : nw.bodyParser msg.body with
    | error e =>
      rw [write_parserFailure nw msg collection e hp] at h
      exact absurd h (by simp)
    | ok uuid =>
      cases hurl : urlHasCtl (nw.address ++ "/" ++ collection ++ "/" ++ uuid) with
      | true =>
        rw [write_ctl_url nw msg collection uuid hp hurl] at h
        exact absurd h (by simp)
      | false =>
        rw [write_parserSuccess nw msg collection uuid hp hurl] at h
        cases hd : nw.httpDo (writeRequest nw msg collection uuid) with
        | error e =>
          rw [hd] at h
          exact absurd h (by simp)
        | ok resp =>
          rw [hd] at h
          simp only [] at h
          split at h <;> (simp only [Option.some.injEq] at h; exact h ▸ ⟨rfl, rfl⟩)
  · intro nw msg collection uuid resp hp hurl hdo
    rw [write_parserSuccess nw msg collection uuid hp hurl, hdo]
    simp only []
    split <;> rfl

/-- Counterexample to C1 as stated: two different non-2xx statuses produce the
very same returned error, whose message is the fixed string "Native writer
returned non-200 code" and never mentions the status code — so the WriteError
does not carry the status code. -/
theorem C1_counterexample :
    ((writerWithStatus 404).WriteToCollection sampleNativeMsg "content").result =
      ((writerWithStatus 500).WriteToCollection sampleNativeMsg "content").result
    ∧ ((writerWithStatus 404).WriteToCollection sampleNativeMsg "content").result =
        some ⟨"Native writer returned non-200 code"⟩
    ∧ ¬ List.IsInfix "404".data "Native writer returned non-200 code".data := by
  exact ⟨rfl, rfl, by decide⟩

/-- Claim C1 (amended): once the uuid is extracted and the request built, a
transport failure makes `WriteToCollection` return the underlying error
unchanged, and a received response is classified by status: any status outside
[200,300) yields the fixed WriteError "Native writer returned non-200 code"
(the status code itself is only logged), while any status inside [200,300)
yields success (`nil`). -/
theorem C1_amended_classification :
    (∀ (nw : nativeWriter) (msg : NativeMessage) (collection uuid : String)
        (e : GoError),
        nw.bodyParser msg.body = .ok uuid →
        urlHasCtl (nw.address ++ "/" ++ collection ++ "/" ++ uuid) = false →
        nw.httpDo = (fun _ => .error e) →
        (nw.WriteToCollection msg collection).result = some e)
    ∧ (∀ (nw : nativeWriter) (msg : NativeMessage) (collection uuid : String)
        (resp : Response),
        nw.bodyParser msg.body = .ok uuid →
        urlHasCtl (nw.address ++ "/" ++ collection ++ "/" ++ uuid) = false →
        nw.httpDo = (fun _ => .ok resp) →
        (nw.WriteToCollection msg collection).result =
          (if isNot2XXStatusCode resp.statusCode then
            some ⟨"Native writer returned non-200 code"⟩
           else none)) := by
  constructor
  · intro nw msg collection uuid e hp hurl hdo
    rw [write_parserSuccess nw msg collection uuid hp hurl, hdo]
  · intro nw msg collection uuid resp hp hurl hdo
    rw [write_parserSuccess nw msg collection uuid hp hurl, hdo]
    simp only []
    split <;> rfl

/-- Witness for the amended C1 at concrete writers: a transport failure
surfaces its cause, a 404 and a 503 yield the fixed WriteError, and a 200 and
a 299 yield success. -/
theorem C1_witness :
    ((NewWriter "http://base" [] "" (stubDoErr ⟨"connection refused"⟩)
        (stubParserOk "abc-123")).WriteToCollection sampleNativeMsg "content").result =
      some ⟨"connection refused"⟩
    ∧ ((writerWithStatus 404).WriteToCollection sampleNativeMsg "content").result =
        some ⟨"Native writer returned non-200 code"⟩
    ∧ ((writerWithStatus 200).WriteToCollection sampleNativeMsg "content").result = none
    ∧ ((writerWithStatus 299).WriteToCollection sampleNativeMsg "content").result = none :=
  ⟨C1_amended_classification.1 _ sampleNativeMsg "content" "abc-123"
     ⟨"connection refused"⟩ rfl rfl rfl,
   C1_amended_classification.2 (writerWithStatus 404) sampleNativeMsg "content" "abc-123"
     ⟨404⟩ rfl rfl rfl,
   C1_amended_classification.2 (writerWithStatus 200) sampleNativeMsg "content" "abc-123"
     ⟨200⟩ rfl rfl rfl,
   C1_amended_classification.2 (writerWithStatus 299) sampleNativeMsg "content" "abc-123"
     ⟨299⟩ rfl rfl rfl⟩

/-- Witness for C4 at concrete writers: both a 2xx and a non-2xx response leave
the response body drained and closed. -/
theorem C4_witness :
    ((writerWithStatus 200).WriteToCollection sampleNativeMsg "content").finalBody =
      some ⟨true, true⟩
    ∧ ((writerWithStatus 500).WriteToCollection sampleNativeMsg "content").finalBody =
        some ⟨true, true⟩ :=
  ⟨C4_response_body_drained_closed.2 (writerWithStatus 200) sampleNativeMsg "content"
     "abc-123" ⟨200⟩ rfl rfl rfl,
   C4_response_body_drained_closed.2 (writerWithStatus 500) sampleNativeMsg "content"
     "abc-123" ⟨500⟩ rfl rfl rfl⟩

end Native

namespace Native

/-- Claim C6 (confirmed): for every successful write, the request handed to
the HTTP client is an HTTP PUT whose URL is exactly the base address, the
collection and the extracted content id joined by "/", carrying
`Content-Type: application/json` and `X-Request-Id` equal to the message's
transaction id. -/
theorem C6_request_shape (nw : nativeWriter) (msg : NativeMessage)
    (collection uuid tid : String) (resp : Response)
    (hp : nw.bodyParser msg.body = .ok uuid)
    (hurl : urlHasCtl (nw.address ++ "/" ++ collection ++ "/" ++ uuid) = false)
    (hdo : nw.httpDo = (fun _ => .ok resp))
    (h2xx : isNot2XXStatusCode resp.statusCode = false)
    (hnd : (msg.headers.map Prod.fst).Nodup)
    (htid : mapGet msg.headers transactionIDHeader = some tid)
    (hct : mapGet msg.headers "Content-Type" = none) :
    (nw.WriteToCollection msg collection).result = none
    ∧ ∃ r : Request,
        (nw.WriteToCollection msg collection).issued = some r
        ∧ r.method = "PUT"
        ∧ r.url = nw.address ++ "/" ++ collection ++ "/" ++ uuid
        ∧ mapGet r.headers "Content-Type" = some "application/json"
        ∧ mapGet r.headers transactionIDHeader = some tid
        ∧ msg.transactionID = tid := by
  have hw := write_parserSuccess nw msg collection uuid hp hurl
  rw [hdo] at hw
  simp only [h2xx, Bool.false_eq_true, if_false] at hw
  refine ⟨by rw [hw], writeRequest nw msg collection uuid, by rw [hw],
    writeRequest_method nw msg collection uuid, writeRequest_url nw msg collection uuid,
    ?_, ?_, ?_⟩
  · rw [writeRequest_headers]
    rw [hdrFold_mapGet_of_forall_ne msg.headers _ _ ((mapGet_eq_none_iff _ _).1 hct)]
    exact mapGet_mapSet_self _ _ _
  · rw [writeRequest_headers]
    exact hdrFold_mapGet_of_mapGet msg.headers transactionIDHeader tid _ hnd htid
  · unfold NativeMessage.transactionID
    rw [htid]
    rfl

/-- Witness for C6 at the concrete fixture: a write to collection "content"
for content id "abc-123" issues `PUT \x7bbase\x7d/content/abc-123` with the JSON
content type and the original transaction id. -/
theorem C6_witness :
    ((writerWithStatus 200).WriteToCollection sampleNativeMsg "content").result = none
    ∧ ∃ r : Request,
        ((writerWithStatus 200).WriteToCollection sampleNativeMsg "content").issued = some r
        ∧ r.method = "PUT"
        ∧ r.url = (writerWithStatus 200).address ++ "/" ++ "content" ++ "/" ++ "abc-123"
        ∧ mapGet r.headers "Content-Type" = some "application/json"
        ∧ mapGet r.headers transactionIDHeader = some "tid_test"
        ∧ sampleNativeMsg.transactionID = "tid_test" :=
  C6_request_shape (writerWithStatus 200) sampleNativeMsg "content" "abc-123" "tid_test"
    ⟨200⟩ rfl rfl rfl rfl (by decide) rfl rfl

/-- Counterexample to C9 as stated: with the whitespace-only configured host
header " ", the connectivity check overrides the Host header with " " while
the write path applies no override at all — the two paths do not use the same
host-header override (both executions otherwise succeed). -/
theorem C9_counterexample :
    (whitespaceHostWriter.ConnectivityCheck).issued.map hostOverride = some (some " ")
    ∧ (whitespaceHostWriter.WriteToCollection sampleNativeMsg "content").issued.map
        hostOverride = some none
    ∧ (whitespaceHostWriter.WriteToCollection sampleNativeMsg "content").result = none :=
  ⟨rfl, rfl, rfl⟩

/-- Claim C9 (amended): `ConnectivityCheck` issues a GET to the well-known
liveness path on the same base address, applying the configured host header
unconditionally (the write path applies it only when it has non-whitespace
content, so the two overrides coincide whenever the configured value is empty
or has non-whitespace content); it returns the success message exactly on
HTTP 200, and a descriptive failure with an error on any non-200 status or
transport failure. -/
theorem C9_amended_connectivity :
    (∀ nw : nativeWriter,
        urlHasCtl (nw.address ++ GTGPath) = false →
        nw.ConnectivityCheck.issued =
          some { method := "GET", url := nw.address ++ GTGPath, body := "",
                 headers := [], host := nw.hostHeader })
    ∧ (∀ (nw : nativeWriter) (e : GoError),
        urlHasCtl (nw.address ++ GTGPath) = false →
        nw.httpDo = (fun _ => .error e) →
        nw.ConnectivityCheck.message = "Native writer is not good to go."
        ∧ nw.ConnectivityCheck.err = some e)
    ∧ (∀ (nw : nativeWriter) (resp : Response),
        urlHasCtl (nw.address ++ GTGPath) = false →
        nw.httpDo = (fun _ => .ok resp) →
        resp.statusCode ≠ 200 →
        nw.ConnectivityCheck.message = "Native writer is not good to go."
        ∧ nw.ConnectivityCheck.err =
            some ⟨"GTG HTTP status code is " ++ toString resp.statusCode⟩)
    ∧ (∀ (nw : nativeWriter) (resp : Response),
        urlHasCtl (nw.address ++ GTGPath) = false →
        nw.httpDo = (fun _ => .ok resp) →
        resp.statusCode = 200 →
        nw.ConnectivityCheck.message = "Native writer is good to go."
        ∧ nw.ConnectivityCheck.err = none)
    ∧ (∀ nw : nativeWriter,
        (nw.hostHeader = "" ∨ 0 < (trimSpace nw.hostHeader).length) →
        ∀ (msg : NativeMessage) (collection uuid : String),
          hostOverride (gtgRequest nw) =
            hostOverride (writeRequest nw msg collection uuid))
    ∧ (∀ (nw : nativeWriter) (msg : NativeMessage) (collection uuid : String)
        (resp : Response),
        nw.bodyParser msg.body = .ok uuid →
        urlHasCtl (nw.address ++ "/" ++ collection ++ "/" ++ uuid) = false →
        nw.httpDo = (fun _ => .ok resp) →
        (nw.WriteToCollection msg collection).issued =
          some (writeRequest nw msg collection uuid)) := by
  refine ⟨?_, ?_, ?_, ?_, ?_, ?_⟩
  · intro nw hurl
    rw [connectivityCheck_shape nw hurl]
    cases hd : nw.httpDo (gtgRequest nw) with
    | error e => rfl
    | ok resp =>
      simp only []
      split <;> rfl
  · intro nw e hurl hdo
    rw [connectivityCheck_shape nw hurl, hdo]
    exact ⟨rfl, rfl⟩
  · intro nw resp hurl hdo hne
    rw [connectivityCheck_shape nw hurl, hdo]
    constructor <;> simp [hne]
  · intro nw resp hurl hdo h200
    rw [connectivityCheck_shape nw hurl, hdo]
    constructor <;> simp [h200]
  · intro nw hcase msg collection uuid
    have hwv := writeRequest_host nw msg collection uuid
    rcases hcase with h0 | hpos
    · have hcond : ¬0 < (trimSpace nw.hostHeader).length := by rw [h0]; decide
      simp [hostOverride, gtgRequest, hwv, hcond, h0]
    · have hne : nw.hostHeader ≠ "" := by
        intro h0
        rw [h0] at hpos
        exact absurd hpos (by decide)
      simp [hostOverride, gtgRequest, hwv, hpos, hne]
  · intro nw msg collection uuid resp hp hurl hdo
    rw [write_parserSuccess nw msg collection uuid hp hurl, hdo]
    simp only []
    split <;> rfl

/-- Witness for the amended C9 at concrete writers: the issued GET, the
transport-failure and non-200 failures, the 200 success, and the coinciding
host overrides for a non-whitespace configured host header. -/
theorem C9_witness :
    (writerWithStatus 200).ConnectivityCheck.issued =
      some { method := "GET", url := (writerWithStatus 200).address ++ GTGPath,
             body := "", headers := [], host := (writerWithStatus 200).hostHeader }
    ∧ ((NewWriter "http://base" [] "host" (stubDoErr ⟨"connection refused"⟩)
          (stubParserOk "abc-123")).ConnectivityCheck.message =
        "Native writer is not good to go."
       ∧ (NewWriter "http://base" [] "host" (stubDoErr ⟨"connection refused"⟩)
            (stubParserOk "abc-123")).ConnectivityCheck.err =
          some ⟨"connection refused"⟩)
    ∧ ((writerWithStatus 503).ConnectivityCheck.message =
        "Native writer is not good to go."
       ∧ (writerWithStatus 503).ConnectivityCheck.err =
          some ⟨"GTG HTTP status code is " ++ toString (503 : Int)⟩)
    ∧ ((writerWithStatus 200).ConnectivityCheck.message =
        "Native writer is good to go."
       ∧ (writerWithStatus 200).ConnectivityCheck.err = none)
    ∧ hostOverride (gtgRequest (writerWithStatus 200)) =
        hostOverride (writeRequest (writerWithStatus 200) sampleNativeMsg "content" "abc-123")
    ∧ ((writerWithStatus 200).WriteToCollection sampleNativeMsg "content").issued =
        some (writeRequest (writerWithStatus 200) sampleNativeMsg "content" "abc-123") :=
  ⟨C9_amended_connectivity.1 (writerWithStatus 200) rfl,
   C9_amended_connectivity.2.1 _ ⟨"connection refused"⟩ rfl rfl,
   C9_amended_connectivity.2.2.1 (writerWithStatus 503) ⟨503⟩ rfl rfl (by decide),
   C9_amended_connectivity.2.2.2.1 (writerWithStatus 200) ⟨200⟩ rfl rfl rfl,
   C9_amended_connectivity.2.2.2.2.1 (writerWithStatus 200) (Or.inr (by decide))
     sampleNativeMsg "content" "abc-123",
   C9_amended_connectivity.2.2.2.2.2 (writerWithStatus 200) sampleNativeMsg "content"
     "abc-123" ⟨200⟩ rfl rfl rfl⟩

end Native
